import Mathlib

/-!
Verification development for the Solstice content-to-sequence pipeline.

Shallow embedding of the repository's card/routine logic:
- data model (`Card`, `Cue`, `Tag`, `ContentObject`) from `src/types/*`;
- URL intake / platform detection (`intakeAgent`, `detectPlatform`);
- cue suggestion (`cueAgent`) and the suggested-cue merge
  (`addSuggestedCue` in `src/components/Card/ContentCard.tsx`);
- routine generation (`extractRoutineType`, `generateTitleFromPrompt`,
  `getMockCardsForType`, `generateRoutineFromPrompt`);
- card reordering (`reorderCards` in `src/context/RoutineContext.tsx`
  and the splice-based `reorderCards` of the builder screen);
- playback state stepping (`PerformRoutineScreen`);
- content deletion (`deleteContent` in `src/services/contentService.ts`).

JavaScript `Date` values (`created_at`, `updated_at`, `timestampSaved`)
are wall-clock timestamps irrelevant to every property below and are not
modelled.  Random id generation (`generateMockId`, `Date.now()` ids) is
modelled by an explicit id-supply argument.
-/

set_option maxHeartbeats 1000000

namespace Solstice

/-- JavaScript `s.includes(sub)`: substring containment, modelled as
infix containment on the character lists. -/
def jsIncludes (s sub : String) : Bool :=
  decide (sub.toList <:+: s.toList)

/-- JavaScript `s.toLowerCase()` on ASCII strings: lower-case character
by character.  (Core `String.toLower` is defined by well-founded recursion
on byte positions and does not reduce in the kernel; this char-list map
agrees with it and with the JS behaviour on the ASCII strings involved.) -/
def jsToLower (s : String) : String :=
  String.mk (s.data.map Char.toLower)

/-- Tag record from `src/types/tag.ts` (colour is presentational and the
category union is modelled as a plain string). -/
structure Tag where
  id : String
  name : String
  category : String
deriving DecidableEq, Repr

/-- Cue record from `src/types/card.ts`. -/
structure Cue where
  id : String
  label : String
  text : Option String := none
  type : Option String := none
  timestamp : Option Nat := none
deriving DecidableEq, Repr

/-- Card record from `src/types/card.ts`.  `created_at`/`updated_at`
(wall-clock dates) are not modelled; the string unions are modelled as
plain strings. -/
structure Card where
  id : String
  title : String
  description : Option String := none
  source_url : Option String := none
  source_type : String := "custom"
  thumbnail_url : Option String := none
  media_url : Option String := none
  startTime : Option Nat := none
  endTime : Option Nat := none
  duration : Option Nat := none
  sets : Option Nat := none
  reps : Option Nat := none
  user_id : String := "mock-user"
  tags : List Tag := []
  cues : List Cue := []
  createdBy : String := "agent"
deriving DecidableEq, Repr

/-- `detectPlatform` from the builder screen (`src/unnamed/part_002`,
lines 157-176): lower-case the URL and test fixed substrings in a fixed
order, first match wins, `"web"` as the default. -/
def detectPlatform (url : String) : String :=
  let urlLower := jsToLower url
  if jsIncludes urlLower "youtube.com" || jsIncludes urlLower "youtu.be" then
    "youtube"
  else if jsIncludes urlLower "instagram.com" then
    "instagram"
  else if jsIncludes urlLower "tiktok.com" then
    "tiktok"
  else if jsIncludes urlLower "medium.com" || jsIncludes urlLower "blog." ||
      jsIncludes urlLower "article" || jsIncludes urlLower ".blog" then
    "article"
  else
    "web"

/-- The youtube-rule test of `detectPlatform`, on the lower-cased URL. -/
def hasYoutubeMarker (url : String) : Bool :=
  jsIncludes (jsToLower url) "youtube.com" || jsIncludes (jsToLower url) "youtu.be"

/-- The instagram-rule test of `detectPlatform`. -/
def hasInstagramMarker (url : String) : Bool :=
  jsIncludes (jsToLower url) "instagram.com"

/-- The tiktok-rule test of `detectPlatform`. -/
def hasTiktokMarker (url : String) : Bool :=
  jsIncludes (jsToLower url) "tiktok.com"

/-- The article-rule test of `detectPlatform`. -/
def hasArticleMarker (url : String) : Bool :=
  jsIncludes (jsToLower url) "medium.com" || jsIncludes (jsToLower url) "blog." ||
    jsIncludes (jsToLower url) "article" || jsIncludes (jsToLower url) ".blog"

/-- The five platform tags `detectPlatform` can return. -/
def platformTags : List String :=
  ["youtube", "instagram", "tiktok", "article", "web"]

/-- `detectPlatform` rewritten through the four rule tests; definitional. -/
theorem detectPlatform_eq_markers (url : String) :
    detectPlatform url =
      if hasYoutubeMarker url then "youtube"
      else if hasInstagramMarker url then "instagram"
      else if hasTiktokMarker url then "tiktok"
      else if hasArticleMarker url then "article"
      else "web" := rfl

end Solstice

namespace Solstice

/-- C6: `detectPlatform` is a pure, deterministic, total function on URL
strings: equal inputs give equal outputs, every URL gets one of the five
platform tags, and when several rule substrings occur the earliest rule
in the fixed list (youtube, then instagram, then tiktok, then article
markers, then generic web) determines the result. -/
theorem detectPlatform_deterministic_total_precedence (url : String) :
    (∀ url₂ : String, url = url₂ → detectPlatform url = detectPlatform url₂)
    ∧ detectPlatform url ∈ platformTags
    ∧ (hasYoutubeMarker url = true → detectPlatform url = "youtube")
    ∧ (hasYoutubeMarker url = false → hasInstagramMarker url = true →
        detectPlatform url = "instagram")
    ∧ (hasYoutubeMarker url = false → hasInstagramMarker url = false →
        hasTiktokMarker url = true → detectPlatform url = "tiktok")
    ∧ (hasYoutubeMarker url = false → hasInstagramMarker url = false →
        hasTiktokMarker url = false → hasArticleMarker url = true →
        detectPlatform url = "article")
    ∧ (hasYoutubeMarker url = false → hasInstagramMarker url = false →
        hasTiktokMarker url = false → hasArticleMarker url = false →
        detectPlatform url = "web") := by
  refine ⟨fun u h => by rw [h], ?_, ?_, ?_, ?_, ?_, ?_⟩
  · cases hY : hasYoutubeMarker url <;> cases hI : hasInstagramMarker url <;>
      cases hT : hasTiktokMarker url <;> cases hA : hasArticleMarker url <;>
      simp [detectPlatform_eq_markers, hY, hI, hT, hA, platformTags]
  · intro hY
    simp [detectPlatform_eq_markers, hY]
  · intro hY hI
    simp [detectPlatform_eq_markers, hY, hI]
  · intro hY hI hT
    simp [detectPlatform_eq_markers, hY, hI, hT]
  · intro hY hI hT hA
    simp [detectPlatform_eq_markers, hY, hI, hT, hA]
  · intro hY hI hT hA
    simp [detectPlatform_eq_markers, hY, hI, hT, hA]

/-- C6 witness: a URL containing both the youtube and the instagram
markers is classified `"youtube"` by the earlier rule. -/
theorem detectPlatform_deterministic_total_precedence_witness :
    detectPlatform "https://youtube.com/watch?v=instagram.com" = "youtube" :=
  (detectPlatform_deterministic_total_precedence
    "https://youtube.com/watch?v=instagram.com").2.2.1 (by decide)

/-- `reorderCards` from the builder screen (`src/unnamed/part_002`,
lines 79-86): copy the array, `splice(fromIndex, 1)` the card out, then
`splice(toIndex, 0, removed)` it back in.  JS `splice` clamps an
insertion index past the end to the end, which `List.take`/`List.drop`
mirror.  (When `fromIndex` is out of range JS would remove nothing and
insert `undefined`; that case is not representable over `List Card` and
is modelled as the identity — every property below assumes a valid
source index.) -/
def reorderCardsMove (cards : List Card) (fromIndex toIndex : Nat) : List Card :=
  match cards[fromIndex]? with
  | some removed =>
      let rest := cards.take fromIndex ++ cards.drop (fromIndex + 1)
      rest.take toIndex ++ removed :: rest.drop toIndex
  | none => cards

/-- The list left after removing the element at a valid index is one
shorter. -/
theorem length_removeAt (cards : List Card) (i : Nat) (h : i < cards.length) :
    (cards.take i ++ cards.drop (i + 1)).length = cards.length - 1 := by
  simp only [List.length_append, List.length_take, List.length_drop]
  omega

/-- Removing the element at a valid index and putting it back in front of
the removed position is a permutation of the original list. -/
theorem perm_removeAt_cons (cards : List Card) (i : Nat) (h : i < cards.length) :
    (cards.get ⟨i, h⟩ :: (cards.take i ++ cards.drop (i + 1))).Perm cards := by
  conv_rhs => rw [← List.take_append_drop i cards, List.drop_eq_getElem_cons h]
  exact (List.perm_middle).symm

/-- C9: moving a card from any valid source position to a target index at
or beyond the end of the list clamps to the last valid index rather than
erroring: the moved card ends at index `n - 1`, the remaining cards keep
their order ahead of it, the length is unchanged, and the result is a
permutation (same card multiset) of the original list. -/
theorem reorderCardsMove_clamps_to_end (cards : List Card) (fromIndex toIndex : Nat)
    (hfrom : fromIndex < cards.length) (hto : cards.length ≤ toIndex) :
    reorderCardsMove cards fromIndex toIndex
      = (cards.take fromIndex ++ cards.drop (fromIndex + 1))
          ++ [cards.get ⟨fromIndex, hfrom⟩]
    ∧ (reorderCardsMove cards fromIndex toIndex).length = cards.length
    ∧ (reorderCardsMove cards fromIndex toIndex)[cards.length - 1]?
        = cards[fromIndex]?
    ∧ (reorderCardsMove cards fromIndex toIndex).Perm cards := by
  have hget : cards[fromIndex]? = some (cards.get ⟨fromIndex, hfrom⟩) :=
    List.getElem?_eq_getElem hfrom
  have hrest := length_removeAt cards fromIndex hfrom
  have h1 : reorderCardsMove cards fromIndex toIndex
      = (cards.take fromIndex ++ cards.drop (fromIndex + 1))
          ++ [cards.get ⟨fromIndex, hfrom⟩] := by
    have htake : (cards.take fromIndex ++ cards.drop (fromIndex + 1)).take toIndex
        = cards.take fromIndex ++ cards.drop (fromIndex + 1) :=
      List.take_of_length_le (by rw [hrest]; omega)
    have hdrop : (cards.take fromIndex ++ cards.drop (fromIndex + 1)).drop toIndex
        = [] :=
      List.drop_eq_nil_of_le (by rw [hrest]; omega)
    simp only [reorderCardsMove, hget]
    rw [htake, hdrop]
  refine ⟨h1, ?_, ?_, ?_⟩
  · rw [h1]
    simp only [List.length_append, List.length_singleton, hrest]
    omega
  · rw [h1, List.getElem?_append_right (by omega), hget, hrest]
    simp [show cards.length - 1 - (cards.length - 1) = 0 from by omega]
  · rw [h1]
    exact (List.perm_append_singleton _ _).trans
      (perm_removeAt_cons cards fromIndex hfrom)

/-- Demo card used to instantiate theorems on concrete inputs. -/
def demoCardA : Card :=
  { id := "cardA", title := "Warm-up" }

/-- Demo card used to instantiate theorems on concrete inputs. -/
def demoCardB : Card :=
  { id := "cardB", title := "Squats" }

/-- Demo card used to instantiate theorems on concrete inputs. -/
def demoCardX : Card :=
  { id := "cardX", title := "Cool down" }

/-- C9 witness: moving the first card of a 3-card list to index 99 puts
it at index 2 (the last valid index). -/
theorem reorderCardsMove_clamps_to_end_witness :
    reorderCardsMove [demoCardX, demoCardA, demoCardB] 0 99
      = ([demoCardX, demoCardA, demoCardB].take 0
          ++ [demoCardX, demoCardA, demoCardB].drop 1)
          ++ [[demoCardX, demoCardA, demoCardB].get ⟨0, by decide⟩] :=
  (reorderCardsMove_clamps_to_end [demoCardX, demoCardA, demoCardB] 0 99
    (by decide) (by decide)).1

/-- ContentObject record from `src/types/contentObject.ts` as used by
`src/services/contentService.ts` (`timestampSaved` is an ISO timestamp
string; `parsedRoutine` is presentational and not modelled). -/
structure ContentObject where
  id : String
  platform : String
  title : String
  url : String
  mediaUrl : Option String := none
  thumbnailUrl : Option String := none
  timestampSaved : String := ""
  userId : String := "mock-user"
deriving DecidableEq, Repr

/-- `deleteContent` from `src/services/contentService.ts` (lines 90-99):
filter out every stored object whose id equals `contentId`, and report
success exactly when the store shrank. -/
def deleteContent (savedContent : List ContentObject) (contentId : String) :
    List ContentObject × Bool :=
  let remaining := savedContent.filter (fun content => content.id != contentId)
  (remaining, decide (remaining.length < savedContent.length))

/-- C10: `deleteContent` returns `true` iff some stored object with the
given id existed; afterwards no object with that id remains, and the
remaining objects are exactly the stored objects with a different id,
unchanged and in their original relative order (a sublist with the same
multiplicity for every object of a different id). -/
theorem deleteContent_spec (savedContent : List ContentObject) (contentId : String) :
    ((deleteContent savedContent contentId).2 = true
        ↔ ∃ c ∈ savedContent, c.id = contentId)
    ∧ (∀ c ∈ (deleteContent savedContent contentId).1, c.id ≠ contentId)
    ∧ (deleteContent savedContent contentId).1.Sublist savedContent
    ∧ (∀ c : ContentObject, c.id ≠ contentId →
        (deleteContent savedContent contentId).1.count c = savedContent.count c) := by
  refine ⟨?_, ?_, ?_, ?_⟩
  · simp only [deleteContent, decide_eq_true_eq,
      List.length_filter_lt_length_iff_exists, bne_iff_ne, ne_eq, not_not]
  · intro c hc
    have := (List.mem_filter.mp hc).2
    simpa [bne_iff_ne] using this
  · exact List.filter_sublist _
  · intro c hc
    exact List.count_filter (by simpa [bne_iff_ne] using hc)

/-- Demo stored content object. -/
def demoContent1 : ContentObject :=
  { id := "1", platform := "youtube", title := "Full Body HIIT Workout",
    url := "https://www.youtube.com/watch?v=example1" }

/-- Demo stored content object. -/
def demoContent2 : ContentObject :=
  { id := "2", platform := "instagram", title := "Quick Morning Yoga Routine",
    url := "https://www.instagram.com/p/example2" }

/-- C10 witness: deleting id "1" from a concrete 2-object store succeeds,
and the object with id "2" keeps its multiplicity. -/
theorem deleteContent_spec_witness :
    ((deleteContent [demoContent1, demoContent2] "1").2 = true
        ↔ ∃ c ∈ [demoContent1, demoContent2], c.id = "1")
    ∧ (deleteContent [demoContent1, demoContent2] "1").1.count demoContent2
        = [demoContent1, demoContent2].count demoContent2 :=
  ⟨(deleteContent_spec [demoContent1, demoContent2] "1").1,
    (deleteContent_spec [demoContent1, demoContent2] "1").2.2.2 demoContent2
      (by decide)⟩

end Solstice

namespace Solstice

/-- Playback state of `PerformRoutineScreen`
(`src/screens/RoutinePlayback/PerformRoutineScreen.tsx`): `currentIndex`,
`isPlaying` and `timeLeft` are the component's state hooks; `completed`
models the terminal "Routine Complete" alert. -/
structure PlaybackState where
  currentIndex : Nat
  isPlaying : Bool
  timeLeft : Nat
  completed : Bool
deriving DecidableEq, Repr

/-- `handleNext` (lines 81-88): while not on the last card, stop the
timer and advance one card; on the last card, signal completion without
moving. -/
def handleNext (routineCards : List Card) (s : PlaybackState) : PlaybackState :=
  if s.currentIndex < routineCards.length - 1 then
    { s with isPlaying := false, currentIndex := s.currentIndex + 1 }
  else
    { s with completed := true }

/-- `handlePrevious` (lines 91-96): while not on the first card, stop the
timer and go back one card; otherwise do nothing. -/
def handlePrevious (s : PlaybackState) : PlaybackState :=
  if 0 < s.currentIndex then
    { s with isPlaying := false, currentIndex := s.currentIndex - 1 }
  else
    s

/-- `toggleTimer` (lines 99-101): flip play/pause. -/
def toggleTimer (s : PlaybackState) : PlaybackState :=
  { s with isPlaying := !s.isPlaying }

/-- The timer-effect guard (line 37): the interval only runs while a
current card exists, it has a truthy (nonzero) duration, and the session
is playing. -/
def timerGuard (routineCards : List Card) (s : PlaybackState) : Bool :=
  match routineCards[s.currentIndex]? with
  | some c =>
      match c.duration with
      | some d => decide (d ≠ 0) && s.isPlaying
      | none => false
  | none => false

/-- One interval tick (lines 47-62): on reaching zero either auto-advance
(not on the last card) or stop and signal completion; otherwise count
down by one second. -/
def timerTick (routineCards : List Card) (s : PlaybackState) : PlaybackState :=
  if timerGuard routineCards s then
    if s.timeLeft ≤ 1 then
      if s.currentIndex < routineCards.length - 1 then
        { s with currentIndex := s.currentIndex + 1, timeLeft := 0 }
      else
        { s with isPlaying := false, completed := true, timeLeft := 0 }
    else
      { s with timeLeft := s.timeLeft - 1 }
  else
    s

/-- The playback operations a session responds to. -/
inductive PlaybackOp where
  | next
  | previous
  | tick
  | toggle
deriving DecidableEq, Repr

/-- One step of the playback session. -/
def playbackStep (routineCards : List Card) (op : PlaybackOp)
    (s : PlaybackState) : PlaybackState :=
  match op with
  | .next => handleNext routineCards s
  | .previous => handlePrevious s
  | .tick => timerTick routineCards s
  | .toggle => toggleTimer s

end Solstice

namespace Solstice

/-- C7: over a non-empty card sequence every playback operation (next,
previous, timer tick, play/pause toggle) preserves the cursor invariant
`currentIndex < len(cards)`: next and the tick's auto-advance never move
past the last index, and previous never moves below index 0 (indices are
naturals, so `0 <= currentIndex` holds by construction). -/
theorem playbackStep_preserves_index_bound (routineCards : List Card)
    (op : PlaybackOp) (s : PlaybackState)
    (hne : routineCards ≠ []) (hidx : s.currentIndex < routineCards.length) :
    (playbackStep routineCards op s).currentIndex < routineCards.length := by
  have hlen : 1 ≤ routineCards.length := List.length_pos.mpr hne
  cases op <;>
    simp only [playbackStep, handleNext, handlePrevious, timerTick, toggleTimer]
  · split <;> simp <;> omega
  · split <;> simp <;> omega
  · split
    · split
      · split <;> simp <;> omega
      · simpa
    · exact hidx
  · exact hidx

/-- C7 witness: the invariant theorem applied to a concrete 1-card
session on the `next` operation. -/
theorem playbackStep_preserves_index_bound_witness :
    ([demoCardA] ≠ ([] : List Card))
    ∧ (playbackStep [demoCardA] PlaybackOp.next
        { currentIndex := 0, isPlaying := false, timeLeft := 0,
          completed := false }).currentIndex < [demoCardA].length :=
  ⟨by decide,
    playbackStep_preserves_index_bound [demoCardA] PlaybackOp.next
      { currentIndex := 0, isPlaying := false, timeLeft := 0,
        completed := false } (by decide) (by decide)⟩

/-- C4 counterexample: advancing from index 0 of a 2-card session whose
timer is running stops the timer (`isPlaying` becomes `false`) while
incrementing the index — the running/stopped status is not kept. -/
theorem handleNext_stops_running_timer_cex :
    (handleNext [demoCardA, demoCardB]
        { currentIndex := 0, isPlaying := true, timeLeft := 30,
          completed := false }).isPlaying = false
    ∧ (handleNext [demoCardA, demoCardB]
        { currentIndex := 0, isPlaying := true, timeLeft := 30,
          completed := false }).currentIndex = 1 := by
  constructor <;> rfl

/-- C4 (amended): `handleNext` while not on the last index increments
`currentIndex` by one and always stops the timer (`isPlaying := false`),
whether or not it was running; on the last index it leaves the index and
timer untouched and signals completion instead. -/
theorem handleNext_spec (routineCards : List Card) (s : PlaybackState) :
    (s.currentIndex < routineCards.length - 1 →
      handleNext routineCards s
        = { s with isPlaying := false, currentIndex := s.currentIndex + 1 })
    ∧ (¬s.currentIndex < routineCards.length - 1 →
      handleNext routineCards s = { s with completed := true }) := by
  constructor <;> intro h <;> simp [handleNext, h]

/-- C4 witness: the amended advance behaviour at a concrete 2-card
session, both halves. -/
theorem handleNext_spec_witness :
    handleNext [demoCardA, demoCardB]
        { currentIndex := 0, isPlaying := true, timeLeft := 30,
          completed := false }
      = { currentIndex := 1, isPlaying := false, timeLeft := 30,
          completed := false }
    ∧ handleNext [demoCardA, demoCardB]
        { currentIndex := 1, isPlaying := false, timeLeft := 0,
          completed := false }
      = { currentIndex := 1, isPlaying := false, timeLeft := 0,
          completed := true } :=
  ⟨(handleNext_spec [demoCardA, demoCardB]
      { currentIndex := 0, isPlaying := true, timeLeft := 30,
        completed := false }).1 (by decide),
    (handleNext_spec [demoCardA, demoCardB]
      { currentIndex := 1, isPlaying := false, timeLeft := 0,
        completed := false }).2 (by decide)⟩

end Solstice

namespace Solstice

/-- The JS `Map` built by `reorderCards` in
`src/context/RoutineContext.tsx` (line 183):
`new Map(cards.map(card => [card.id, card]))` followed by `get(id)`.
Successive `set`s overwrite, so a duplicate id resolves to the last card
carrying it; a missing id resolves to `undefined` (`none`). -/
def cardMapGet (cards : List Card) (cardId : String) : Option Card :=
  cards.foldl (fun acc c => if c.id = cardId then some c else acc) none

/-- `reorderCards` from `src/context/RoutineContext.tsx` (lines 166-195):
map the supplied ids through the id→card map, drop the ids that resolve
to `undefined`, and save.  The mock save always succeeds, so the call
reports `true` unconditionally — no permutation check is performed. -/
def reorderCards (cards : List Card) (cardIds : List String) :
    List Card × Bool :=
  (cardIds.filterMap (cardMapGet cards), true)

/-- Folding the map-building step over cards none of which carry the
looked-up id leaves the accumulator unchanged. -/
theorem cardMapGet_foldl_of_notMem (cardId : String) (cards : List Card)
    (acc : Option Card) (h : ∀ c ∈ cards, c.id ≠ cardId) :
    cards.foldl (fun acc c => if c.id = cardId then some c else acc) acc = acc := by
  induction cards generalizing acc with
  | nil => rfl
  | cons d rest ih =>
      have hd : d.id ≠ cardId := h d (List.mem_cons_self d rest)
      simp only [List.foldl_cons, if_neg hd]
      exact ih acc (fun c hc => h c (List.mem_cons_of_mem d hc))

/-- When the routine's card ids are duplicate-free, the id→card map sends
each member card's id to that card. -/
theorem cardMapGet_of_nodup (cards : List Card)
    (hnd : (cards.map Card.id).Nodup) (c : Card) (hc : c ∈ cards) :
    cardMapGet cards c.id = some c := by
  induction cards with
  | nil => cases hc
  | cons d rest ih =>
      simp only [List.map_cons, List.nodup_cons] at hnd
      rcases List.mem_cons.mp hc with rfl | hmem
      · have hrest : ∀ e ∈ rest, e.id ≠ c.id := by
          intro e he
          exact fun hcontra => hnd.1 (hcontra ▸ List.mem_map_of_mem Card.id he)
        simp only [cardMapGet, List.foldl_cons, if_pos rfl]
        exact cardMapGet_foldl_of_notMem c.id rest (some c) hrest
      · have hneq : d.id ≠ c.id := by
          intro hcontra
          exact hnd.1 (hcontra ▸ List.mem_map_of_mem Card.id hmem)
        simp only [cardMapGet, List.foldl_cons, if_neg hneq]
        exact ih hnd.2 hmem

/-- Mapping ids that all resolve to a card of that id through
`filterMap` reproduces the id sequence. -/
theorem filterMap_map_id_of_resolves (f : String → Option Card)
    (ids : List String)
    (h : ∀ cardId ∈ ids, ∃ c, f cardId = some c ∧ c.id = cardId) :
    (ids.filterMap f).map Card.id = ids := by
  induction ids with
  | nil => rfl
  | cons i rest ih =>
      obtain ⟨c, hc, hcid⟩ := h i (List.mem_cons_self i rest)
      simp only [List.filterMap_cons, hc, List.map_cons, hcid]
      exact congrArg (i :: ·)
        (ih (fun j hj => h j (List.mem_cons_of_mem i hj)))

/-- A `filterMap` that sends every member to `some` of itself is the
identity. -/
theorem filterMap_eq_self_of_mem (f : Card → Option Card)
    (cards : List Card) (h : ∀ c ∈ cards, f c = some c) :
    cards.filterMap f = cards := by
  induction cards with
  | nil => rfl
  | cons d rest ih =>
      simp only [List.filterMap_cons, h d (List.mem_cons_self d rest)]
      exact congrArg (d :: ·)
        (ih (fun c hc => h c (List.mem_cons_of_mem d hc)))

/-- C2 counterexample: on a 2-card routine, reordering with the
non-permutation id sequence `["cardA"]` (an omission) neither errors nor
leaves the order unchanged — it reports success (`true`) and silently
drops the second card. -/
theorem reorderCards_nonperm_cex :
    reorderCards [demoCardA, demoCardB] ["cardA"] = ([demoCardA], true)
    ∧ (reorderCards [demoCardA, demoCardB] ["cardA"]).1
        ≠ [demoCardA, demoCardB]
    ∧ (reorderCards [demoCardA, demoCardB] ["cardA"]).2 ≠ false := by
  refine ⟨?_, ?_, ?_⟩ <;> decide

/-- C2 (amended): `reorderCards` performs no permutation check: it always
reports success and wholesale replaces the card sequence by the cards the
supplied ids resolve to, in the supplied order (unresolved ids are
dropped, duplicate ids duplicate their card).  When the supplied ids are
exactly a permutation of the routine's duplicate-free card ids, reading
the card order back yields exactly those ids in that order, over the same
cards. -/
theorem reorderCards_spec (cards : List Card) (cardIds : List String) :
    reorderCards cards cardIds = (cardIds.filterMap (cardMapGet cards), true)
    ∧ ((cards.map Card.id).Nodup → cardIds.Perm (cards.map Card.id) →
        (reorderCards cards cardIds).1.map Card.id = cardIds
        ∧ (reorderCards cards cardIds).1.Perm cards) := by
  refine ⟨rfl, fun hnd hperm => ?_⟩
  constructor
  · refine filterMap_map_id_of_resolves (cardMapGet cards) cardIds ?_
    intro cardId hmem
    have : cardId ∈ cards.map Card.id := hperm.mem_iff.mp hmem
    obtain ⟨c, hc, rfl⟩ := List.mem_map.mp this
    exact ⟨c, cardMapGet_of_nodup cards hnd c hc, rfl⟩
  · have hmapped : (cards.map Card.id).filterMap (cardMapGet cards) = cards := by
      rw [List.filterMap_map]
      exact filterMap_eq_self_of_mem _ cards
        (fun c hc => cardMapGet_of_nodup cards hnd c hc)
    have h1 := hperm.filterMap (cardMapGet cards)
    rw [hmapped] at h1
    exact h1

/-- C2 witness: reordering a concrete 2-card routine with the reversed
permutation of its ids yields exactly that id sequence. -/
theorem reorderCards_spec_witness :
    (reorderCards [demoCardA, demoCardB] ["cardB", "cardA"]).1.map Card.id
      = ["cardB", "cardA"] :=
  ((reorderCards_spec [demoCardA, demoCardB] ["cardB", "cardA"]).2
    (by decide) (by decide)).1

end Solstice

namespace Solstice

/-- `cueAgent` from `src/services/agentService.ts` (lines 240-249): the
input (the card/video under edit) is ignored and the same fixed triplet
of cues is returned on every call. -/
def cueAgent (video : String) : List Cue :=
  [{ id := "auto1", label := "Keep your core tight",
     type := some "form", timestamp := some 15 },
   { id := "auto2", label := "Breathe with each movement",
     type := some "breathing", timestamp := some 30 },
   { id := "auto3", label := "Focus on the muscle contraction",
     type := some "focus", timestamp := some 45 }]

/-- `addSuggestedCue` from `src/components/Card/ContentCard.tsx`
(lines 330-338): a suggested cue is appended (under a fresh id, in the
source `temp-${Date.now()}`, modelled by the `freshId` argument) only
when no current cue carries exactly the same label (case-sensitive). -/
def addSuggestedCue (cues : List Cue) (cue : Cue) (freshId : String) :
    List Cue :=
  if cues.any (fun c => c.label = cue.label) then
    cues
  else
    cues ++ [{ cue with id := freshId }]

/-- C8 counterexample: `cueAgent` applies no keyword rule to the card
title — a card titled "Core Crusher" and one titled "Warm Up Stretch"
receive the identical triplet, contradicting the claimed core-specific
triplet that differs from the warm-up and no-keyword triplets. -/
theorem cueAgent_ignores_title_cex :
    cueAgent "Core Crusher" = cueAgent "Warm Up Stretch"
    ∧ cueAgent "Core Crusher" = cueAgent "Totally Unrelated"
    ∧ (cueAgent "Core Crusher").map Cue.label
        = ["Keep your core tight", "Breathe with each movement",
           "Focus on the muscle contraction"] := by
  refine ⟨rfl, rfl, rfl⟩

/-- C8 (amended): the cue suggestion fallback ignores the card title and
returns one fixed triplet of cues for every input; merging a suggested
cue into a card's cue list adds it (under a fresh id) exactly when no
existing cue has an exactly matching label (case-sensitive), and leaves
the list unchanged when an exact label match already exists. -/
theorem cueAgent_constant_and_merge_dedup :
    (∀ s t : String, cueAgent s = cueAgent t)
    ∧ (∀ (cues : List Cue) (cue : Cue) (freshId : String),
        ((∃ c ∈ cues, c.label = cue.label) →
          addSuggestedCue cues cue freshId = cues)
        ∧ ((∀ c ∈ cues, c.label ≠ cue.label) →
          addSuggestedCue cues cue freshId
            = cues ++ [{ cue with id := freshId }])) := by
  refine ⟨fun s t => rfl, fun cues cue freshId => ⟨?_, ?_⟩⟩
  · intro h
    have : cues.any (fun c => c.label = cue.label) = true := by
      obtain ⟨c, hc, hl⟩ := h
      exact List.any_eq_true.mpr ⟨c, hc, by simp [hl]⟩
    simp [addSuggestedCue, this]
  · intro h
    have : cues.any (fun c => c.label = cue.label) = false := by
      simp only [List.any_eq_false]
      intro c hc
      simp [h c hc]
    simp [addSuggestedCue, this]

/-- Demo cue with the exact label of the first suggested cue. -/
def demoCoreCue : Cue :=
  { id := "c9", label := "Keep your core tight", type := some "form" }

/-- C8 witness: merging the first suggested cue into a list that already
holds its exact label is a no-op, and merging the second (not present)
appends it under a fresh id. -/
theorem cueAgent_constant_and_merge_dedup_witness :
    addSuggestedCue [demoCoreCue] ((cueAgent "x").get ⟨0, by decide⟩) "temp-1"
      = [demoCoreCue]
    ∧ addSuggestedCue [demoCoreCue] ((cueAgent "x").get ⟨1, by decide⟩) "temp-2"
      = [demoCoreCue,
         { ((cueAgent "x").get ⟨1, by decide⟩) with id := "temp-2" }] :=
  ⟨((cueAgent_constant_and_merge_dedup.2 [demoCoreCue]
      ((cueAgent "x").get ⟨0, by decide⟩) "temp-1").1 (by decide)),
    ((cueAgent_constant_and_merge_dedup.2 [demoCoreCue]
      ((cueAgent "x").get ⟨1, by decide⟩) "temp-2").2 (by decide))⟩

end Solstice

namespace Solstice

/-- The four cards of `intakeAgent`'s youtube branch
(`src/services/agentService.ts`, lines 25-110). -/
def youtubeMockCards (url : String) : List Card :=
  [{ id := "1", title := "Warm-up Routine",
     description := some "A gentle 5-minute warm-up before the main workout",
     source_url := some url, source_type := "youtube",
     thumbnail_url := some "https://via.placeholder.com/300x200",
     media_url := some "https://www.youtube.com/embed/dQw4w9WgXcQ",
     startTime := some 0, endTime := some 300, duration := some 300,
     cues := [{ id := "c1", label := "Keep your back straight",
                type := some "form" },
              { id := "c2", label := "Breathe deeply",
                type := some "breathing", timestamp := some 120 }] },
   { id := "2", title := "Core Exercise 1",
     description := some "First core strengthening exercise",
     source_url := some url, source_type := "youtube",
     thumbnail_url := some "https://via.placeholder.com/300x200",
     media_url := some "https://www.youtube.com/embed/dQw4w9WgXcQ",
     startTime := some 310, endTime := some 490, duration := some 180,
     sets := some 3, reps := some 12,
     cues := [{ id := "c3", label := "Engage your core",
                type := some "focus", timestamp := some 330 },
              { id := "c4", label := "Slow controlled movement",
                type := some "tempo", timestamp := some 400 }] },
   { id := "3", title := "Rest Period",
     description := some "Short rest before continuing",
     source_url := some url, source_type := "youtube",
     media_url := some "https://www.youtube.com/embed/dQw4w9WgXcQ",
     startTime := some 490, endTime := some 550, duration := some 60 },
   { id := "4", title := "Core Exercise 2",
     description := some "Second core strengthening exercise",
     source_url := some url, source_type := "youtube",
     thumbnail_url := some "https://via.placeholder.com/300x200",
     media_url := some "https://www.youtube.com/embed/dQw4w9WgXcQ",
     startTime := some 550, endTime := some 790, duration := some 240,
     sets := some 4, reps := some 10,
     cues := [{ id := "c5", label := "Keep your hips stable",
                type := some "form", timestamp := some 600 }] }]

/-- The two cards of `intakeAgent`'s instagram branch (lines 111-154). -/
def instagramMockCards (url : String) : List Card :=
  [{ id := "5", title := "Quick HIIT Burst",
     description := some "High-intensity interval training from Instagram",
     source_url := some url, source_type := "instagram",
     thumbnail_url := some "https://via.placeholder.com/300x300",
     media_url := some "https://www.instagram.com/p/mock-post/",
     startTime := some 0, endTime := some 45, duration := some 45,
     cues := [{ id := "c6", label := "Maximum effort!",
                type := some "focus", timestamp := some 15 },
              { id := "c7", label := "Control your breathing",
                type := some "breathing", timestamp := some 30 }] },
   { id := "6", title := "Recovery Stretch",
     description := some "Post-workout stretching routine",
     source_url := some url, source_type := "instagram",
     thumbnail_url := some "https://via.placeholder.com/300x300",
     media_url := some "https://www.instagram.com/p/mock-post/",
     startTime := some 50, endTime := some 110, duration := some 60,
     cues := [{ id := "c8", label := "Hold for 10 seconds",
                type := some "tempo", timestamp := some 60 }] }]

/-- The single card of `intakeAgent`'s tiktok branch (lines 155-177). -/
def tiktokMockCards (url : String) : List Card :=
  [{ id := "7", title := "Quick Abs Exercise",
     description := some "Fast and effective abs workout from TikTok",
     source_url := some url, source_type := "tiktok",
     thumbnail_url := some "https://via.placeholder.com/300x500",
     media_url := some "https://www.tiktok.com/@user/video/mock-video",
     startTime := some 0, endTime := some 30, duration := some 30,
     cues := [{ id := "c9", label := "Tighten your core",
                type := some "form", timestamp := some 10 }] }]

/-- The two cards of `intakeAgent`'s blog/article branch (lines 178-213). -/
def articleMockCards (url : String) : List Card :=
  [{ id := "8", title := "Meditation Introduction",
     description := some "Introduction to mindful meditation practice",
     source_url := some url, source_type := "article",
     duration := some 180,
     cues := [{ id := "c10", label := "Find a comfortable seated position",
                type := some "form" },
              { id := "c11", label := "Focus on your breath",
                type := some "breathing", timestamp := some 60 }] },
   { id := "9", title := "Body Scan",
     description := some "Progressive body awareness exercise",
     source_url := some url, source_type := "article",
     duration := some 300,
     cues := [{ id := "c12",
                label := "Start from your toes and move upward",
                type := some "focus", timestamp := some 120 }] }]

/-- The single generic card of `intakeAgent`'s default branch
(lines 214-232); `hostname` is `new URL(url).hostname`. -/
def genericMockCard (url hostname : String) : Card :=
  { id := "10", title := "Exercise from " ++ hostname,
    description := some "Content parsed from the provided URL",
    source_url := some url, source_type := "custom",
    duration := some 180 }

/-- `intakeAgent` from `src/services/agentService.ts` (lines 15-233):
branch on case-sensitive substrings of the URL and return the branch's
fixed mock card list.  The JS `new URL(url)` hostname extraction of the
default branch (which throws on an unparseable URL, rejecting the
promise) is modelled by the explicit `hostnameOf` argument: `none` is the
thrown error, so a `some cards` result is a successful call. -/
def intakeAgent (hostnameOf : String → Option String) (url : String) :
    Option (List Card) :=
  if jsIncludes url "youtube" || jsIncludes url "youtu.be" then
    some (youtubeMockCards url)
  else if jsIncludes url "instagram" || jsIncludes url "insta" then
    some (instagramMockCards url)
  else if jsIncludes url "tiktok" then
    some (tiktokMockCards url)
  else if jsIncludes url "blog" || jsIncludes url "article" then
    some (articleMockCards url)
  else
    (hostnameOf url).map (fun hostname => [genericMockCard url hostname])

end Solstice

namespace Solstice

/-- C1: every successful `intakeAgent` call returns a non-empty card
sequence, in every branch of the URL classification including the generic
default branch, for every possible hostname extractor (so in particular
however the backing environment behaves). -/
theorem intakeAgent_nonempty (hostnameOf : String → Option String)
    (url : String) (cards : List Card)
    (h : intakeAgent hostnameOf url = some cards) : 1 ≤ cards.length := by
  unfold intakeAgent at h
  split at h
  · cases h
    simp [youtubeMockCards]
  · split at h
    · cases h
      simp [instagramMockCards]
    · split at h
      · cases h
        simp [tiktokMockCards]
      · split at h
        · cases h
          simp [articleMockCards]
        · cases hh : hostnameOf url with
          | none => rw [hh] at h; cases h
          | some hostname =>
              rw [hh] at h
              cases h
              simp

/-- C1 witness: the tiktok branch applied at a concrete URL returns a
1-card (hence non-empty) sequence, with a hostname extractor that always
fails — the non-default branches never consult it. -/
theorem intakeAgent_nonempty_witness :
    intakeAgent (fun _ => none) "https://www.tiktok.com/@user/video/1"
      = some (tiktokMockCards "https://www.tiktok.com/@user/video/1")
    ∧ 1 ≤ (tiktokMockCards "https://www.tiktok.com/@user/video/1").length :=
  ⟨by decide,
    intakeAgent_nonempty (fun _ => none) "https://www.tiktok.com/@user/video/1"
      (tiktokMockCards "https://www.tiktok.com/@user/video/1") (by decide)⟩

end Solstice

namespace Solstice

/-- C5 counterexample: `intakeAgent` takes only the URL — there is no
service response to validate — and for the Scenario A URL
`"https://youtube.com/watch?v=abc"` it returns the fixed 4-card youtube
mock list, not the claimed 2 cards, whatever any backing service would
have returned. -/
theorem intakeAgent_scenarioA_cex :
    (intakeAgent (fun _ => none) "https://youtube.com/watch?v=abc").map
        List.length = some 4
    ∧ (intakeAgent (fun _ => none) "https://youtube.com/watch?v=abc").map
        List.length ≠ some 2 := by
  refine ⟨?_, ?_⟩ <;> decide

/-- C5 (amended): `intakeAgent` has no validation step because it never
consumes a service response; nevertheless every card of every successful
call satisfies the segment invariant the claim's validation was meant to
enforce — whenever both offsets are present, `endTime > startTime`
(no zero-length or inverted segment is ever returned). -/
theorem intakeAgent_segment_bounds (hostnameOf : String → Option String)
    (url : String) (cards : List Card)
    (h : intakeAgent hostnameOf url = some cards) :
    ∀ c ∈ cards, ∀ s e : Nat,
      c.startTime = some s → c.endTime = some e → s < e := by
  unfold intakeAgent at h
  split at h
  · cases h
    intro c hc s e hs he
    simp only [youtubeMockCards, List.mem_cons, List.not_mem_nil, or_false] at hc
    rcases hc with rfl | rfl | rfl | rfl <;> simp_all <;> omega
  · split at h
    · cases h
      intro c hc s e hs he
      simp only [instagramMockCards, List.mem_cons, List.not_mem_nil,
        or_false] at hc
      rcases hc with rfl | rfl <;> simp_all <;> omega
    · split at h
      · cases h
        intro c hc s e hs he
        simp only [tiktokMockCards, List.mem_cons, List.not_mem_nil,
          or_false] at hc
        rcases hc with rfl <;> simp_all <;> omega
      · split at h
        · cases h
          intro c hc s e hs he
          simp only [articleMockCards, List.mem_cons, List.not_mem_nil,
            or_false] at hc
          rcases hc with rfl | rfl <;> simp_all <;> omega
        · cases hh : hostnameOf url with
          | none => rw [hh] at h; cases h
          | some hostname =>
              rw [hh] at h
              cases h
              intro c hc s e hs he
              simp only [genericMockCard, List.mem_cons, List.not_mem_nil,
                or_false] at hc
              subst hc
              simp_all

/-- C5 witness: the segment-bounds theorem applied to the first card of
the Scenario A youtube result, whose offsets are 0 and 300. -/
theorem intakeAgent_segment_bounds_witness :
    (0 : Nat) < 300 :=
  intakeAgent_segment_bounds (fun _ => none)
    "https://youtube.com/watch?v=abc"
    (youtubeMockCards "https://youtube.com/watch?v=abc") (by decide)
    ((youtubeMockCards "https://youtube.com/watch?v=abc").get ⟨0, by decide⟩)
    (List.get_mem _ _ _) 0 300 (by decide) (by decide)

end Solstice

namespace Solstice

/-- Worker for `jsSplit`: accumulate the current chunk (reversed) and cut
at each separator. -/
def jsSplitGo (sep : Char) : List Char → List Char → List String
  | [], acc => [String.mk acc.reverse]
  | c :: cs, acc =>
      if c = sep then String.mk acc.reverse :: jsSplitGo sep cs []
      else jsSplitGo sep cs (c :: acc)

/-- JavaScript `s.split(sep)` for a single-character separator: every
occurrence cuts, consecutive separators produce empty chunks, and the
empty string yields `[""]`. -/
def jsSplit (s : String) (sep : Char) : List String :=
  jsSplitGo sep s.data []

/-- JavaScript `w.charAt(0).toUpperCase() + w.slice(1)` (the empty word
maps to itself). -/
def jsCapitalize (w : String) : String :=
  match w.data with
  | [] => ""
  | c :: rest => String.mk (c.toUpper :: rest)

/-- The stop-word list of `generateTitleFromPrompt`
(`src/services/agentService.ts`, line 507). -/
def stopWords : List String :=
  ["with", "that", "this", "from", "want", "need", "please", "would", "could"]

/-- `extractRoutineType` (lines 481-497): keyword containment on the
lower-cased prompt, evaluated in the fixed order yoga/stretch, then
strength/weight, then cardio/hiit, then meditation/mindfulness, then
pilates, defaulting to "general". -/
def extractRoutineType (prompt : String) : String :=
  let prompt_lower := jsToLower prompt
  if jsIncludes prompt_lower "yoga" || jsIncludes prompt_lower "stretch" then
    "yoga"
  else if jsIncludes prompt_lower "strength" ||
      jsIncludes prompt_lower "weight" then
    "strength"
  else if jsIncludes prompt_lower "cardio" ||
      jsIncludes prompt_lower "hiit" then
    "cardio"
  else if jsIncludes prompt_lower "meditation" ||
      jsIncludes prompt_lower "mindfulness" then
    "meditation"
  else if jsIncludes prompt_lower "pilates" then
    "pilates"
  else
    "general"

/-- `generateTitleFromPrompt` (lines 502-528): split the prompt on
spaces, keep the words longer than 3 characters that are not stop words,
capitalize the first two, and suffix by routine type. -/
def generateTitleFromPrompt (prompt type : String) : String :=
  let words := jsSplit prompt ' '
  let keyWords := words.filter (fun word =>
    decide (3 < word.length) && !(stopWords.contains (jsToLower word)))
  let selectedWords := (keyWords.take 2).map jsCapitalize
  let joined := " ".intercalate selectedWords
  if type = "yoga" then joined ++ " Yoga Flow"
  else if type = "strength" then joined ++ " Strength Training"
  else if type = "cardio" then joined ++ " Cardio Workout"
  else if type = "meditation" then joined ++ " Meditation"
  else if type = "pilates" then joined ++ " Pilates Routine"
  else joined ++ " Wellness Routine"

/-- RoutineCard pair from the generator: the `Routine`/`RoutineCard`
interfaces (`src/types/routine.ts`) are not part of the repository
snapshot; the shape is taken from their uses in
`src/services/agentService.ts` — `{ card, order }` literals plus the
optional `duration` that `calculateTotalDuration` reads. -/
structure RoutineCard where
  card : Card
  order : Nat
  duration : Option Nat := none
deriving DecidableEq, Repr

/-- JavaScript `a || b` over an optional number: `undefined` and `0` are
falsy and fall through to `b`. -/
def jsNumOr (a : Option Nat) (b : Nat) : Nat :=
  match a with
  | some d => if d = 0 then b else d
  | none => b

/-- `calculateTotalDuration` (lines 472-476):
`total + (routineCard.duration || routineCard.card.duration || 0)`. -/
def calculateTotalDuration (routineCards : List RoutineCard) : Nat :=
  routineCards.foldl
    (fun total routineCard =>
      total + jsNumOr routineCard.duration (jsNumOr routineCard.card.duration 0))
    0

/-- Routine record as built by the generator (author and equipment are
constants in the source and not modelled; `createdAt`/`updatedAt` are
dates). -/
structure Routine where
  id : String
  title : String
  description : String := ""
  cards : List RoutineCard := []
  tags : List Tag := []
  isPublic : Bool := false
  totalDuration : Nat := 0
  difficulty : String := "beginner"
deriving DecidableEq, Repr

/-- `getMockCardsForType` (lines 533-795): the fixed per-category card
templates.  Each `generateMockId()` call (a random id in the source) is
modelled as `gen k` with `k` numbering the calls of the taken branch in
source order.  The template cue literals set only `text` (no `label`),
so `label` is the empty string here. -/
def getMockCardsForType (gen : Nat → String) (type : String) : List Card :=
  if type = "yoga" then
    [{ id := gen 0, title := "Sun Salutation A",
       description := some "Classic yoga warm-up sequence",
       source_type := "custom", duration := some 180,
       tags := [{ id := gen 1, name := "yoga", category := "focus" },
                { id := gen 2, name := "warm-up", category := "focus" }],
       cues := [{ id := gen 3, label := "",
                  text := some "Breathe deeply through each position",
                  type := some "breathing" },
                { id := gen 4, label := "",
                  text := some "Keep your core engaged",
                  type := some "form" }] },
     { id := gen 5, title := "Standing Poses",
       description := some "Series of standing yoga poses",
       source_type := "custom", duration := some 300,
       tags := [{ id := gen 6, name := "yoga", category := "focus" },
                { id := gen 7, name := "standing", category := "focus" }],
       cues := [{ id := gen 8, label := "",
                  text := some "Ground through all four corners of your feet",
                  type := some "form" }] },
     { id := gen 9, title := "Final Relaxation",
       description := some "Savasana relaxation pose",
       source_type := "custom", duration := some 240,
       tags := [{ id := gen 10, name := "yoga", category := "focus" },
                { id := gen 11, name := "relaxation", category := "focus" }],
       cues := [{ id := gen 12, label := "",
                  text := some "Let your body completely relax",
                  type := some "focus" }] }]
  else if type = "strength" then
    [{ id := gen 0, title := "Warm-up",
       description := some "Dynamic warm-up for strength training",
       source_type := "custom", duration := some 180,
       tags := [{ id := gen 1, name := "warm-up", category := "focus" }] },
     { id := gen 2, title := "Squat Series",
       description := some "Various squat variations",
       source_type := "custom", sets := some 3, reps := some 12,
       tags := [{ id := gen 3, name := "legs", category := "bodyPart" },
                { id := gen 4, name := "strength", category := "focus" }],
       cues := [{ id := gen 5, label := "",
                  text := some "Keep your knees in line with your toes",
                  type := some "form" }] },
     { id := gen 6, title := "Push-up Variations",
       description := some "Different push-up styles for upper body",
       source_type := "custom", sets := some 3, reps := some 10,
       tags := [{ id := gen 7, name := "chest", category := "bodyPart" },
                { id := gen 8, name := "arms", category := "bodyPart" }],
       cues := [{ id := gen 9, label := "",
                  text := some "Maintain a straight line from head to heels",
                  type := some "form" }] },
     { id := gen 10, title := "Cool Down",
       description := some "Static stretching sequence",
       source_type := "custom", duration := some 240,
       tags := [{ id := gen 11, name := "stretching", category := "focus" }] }]
  else if type = "cardio" then
    [{ id := gen 0, title := "Warm-up Jog",
       description := some "Light jogging to increase heart rate",
       source_type := "custom", duration := some 180,
       tags := [{ id := gen 1, name := "cardio", category := "focus" },
                { id := gen 2, name := "warm-up", category := "focus" }] },
     { id := gen 3, title := "HIIT Interval 1",
       description := some "High intensity interval training set",
       source_type := "custom", duration := some 240,
       tags := [{ id := gen 4, name := "hiit", category := "focus" },
                { id := gen 5, name := "cardio", category := "focus" }],
       cues := [{ id := gen 6, label := "",
                  text := some "All-out effort for 30 seconds",
                  type := some "tempo" }] },
     { id := gen 7, title := "Active Recovery",
       description := some "Light movement between intervals",
       source_type := "custom", duration := some 120,
       tags := [{ id := gen 8, name := "recovery", category := "focus" }],
       cues := [{ id := gen 9, label := "",
                  text := some "Focus on controlling your breathing",
                  type := some "breathing" }] },
     { id := gen 10, title := "HIIT Interval 2",
       description := some "Second set of high intensity exercises",
       source_type := "custom", duration := some 240,
       tags := [{ id := gen 11, name := "hiit", category := "focus" },
                { id := gen 12, name := "cardio", category := "focus" }] },
     { id := gen 13, title := "Cool Down",
       description := some "Gradual reduction in intensity",
       source_type := "custom", duration := some 180,
       tags := [{ id := gen 14, name := "cool-down", category := "focus" }] }]
  else if type = "meditation" then
    [{ id := gen 0, title := "Settling In",
       description := some "Finding a comfortable position and settling your mind",
       source_type := "custom", duration := some 120,
       tags := [{ id := gen 1, name := "meditation", category := "focus" }],
       cues := [{ id := gen 2, label := "",
                  text := some "Find a comfortable seated position",
                  type := some "form" },
                { id := gen 3, label := "",
                  text := some "Close your eyes gently",
                  type := some "form" }] },
     { id := gen 4, title := "Breath Awareness",
       description := some "Focusing on the natural rhythm of your breath",
       source_type := "custom", duration := some 300,
       tags := [{ id := gen 5, name := "breathing", category := "focus" },
                { id := gen 6, name := "meditation", category := "focus" }],
       cues := [{ id := gen 7, label := "",
                  text := some "Notice the sensation of breath entering and leaving your body",
                  type := some "breathing" }] },
     { id := gen 8, title := "Body Scan",
       description := some "Bringing awareness to each part of your body",
       source_type := "custom", duration := some 360,
       tags := [{ id := gen 9, name := "body-scan", category := "focus" },
                { id := gen 10, name := "meditation", category := "focus" }],
       cues := [{ id := gen 11, label := "",
                  text := some "Move your attention slowly from your toes to your head",
                  type := some "focus" }] },
     { id := gen 12, title := "Gentle Return",
       description := some "Gradually returning to regular awareness",
       source_type := "custom", duration := some 120,
       tags := [{ id := gen 13, name := "meditation", category := "focus" }] }]
  else
    [{ id := gen 0, title := "Getting Started",
       description := some "Introduction to your custom routine",
       source_type := "custom", duration := some 120,
       tags := [{ id := gen 1, name := "beginner", category := "difficulty" }] },
     { id := gen 2, title := "Main Activity",
       description := some "Core part of your wellness routine",
       source_type := "custom", duration := some 480,
       tags := [{ id := gen 3, name := "wellness", category := "focus" }] },
     { id := gen 4, title := "Finishing Up",
       description := some "Winding down your routine",
       source_type := "custom", duration := some 180,
       tags := [{ id := gen 5, name := "cool-down", category := "focus" }] }]

/-- `generateRoutineFromPrompt` (lines 311-349): classify the prompt,
instantiate that category's template, wrap each card with its 1-based
order, and assemble the routine (title from the prompt, description the
verbatim prompt, pre-computed total duration).  `gen` supplies the
template's fresh ids and `routineId` the routine's own `generateMockId()`
result. -/
def generateRoutineFromPrompt (gen : Nat → String) (routineId : String)
    (prompt : String) : Routine :=
  let routineType := extractRoutineType prompt
  let generatedCards := getMockCardsForType gen routineType
  let routineCards := generatedCards.enum.map
    (fun p => { card := p.2, order := p.1 + 1 : RoutineCard })
  { id := routineId,
    title := generateTitleFromPrompt prompt routineType,
    description := prompt,
    cards := routineCards,
    tags := [],
    isPublic := false,
    totalDuration := calculateTotalDuration routineCards,
    difficulty := "beginner" }

/-- The Scenario B prompt. -/
def scenarioBPrompt : String :=
  "a 30-minute HIIT workout focusing on core strength"

end Solstice

namespace Solstice

/-- C3 counterexample: the Scenario B prompt contains "strength", and the
strength keywords are tested before the cardio keywords, so
`extractRoutineType` classifies it "strength", not the claimed
"cardio". -/
theorem extractRoutineType_scenarioB_cex :
    extractRoutineType scenarioBPrompt = "strength"
    ∧ extractRoutineType scenarioBPrompt ≠ "cardio" := by
  refine ⟨rfl, by decide⟩

/-- C3 (amended): `generateFromPrompt` on the Scenario B prompt
classifies to "strength" (strength keywords are matched with higher
priority than cardio keywords in the fixed rule order) and returns the
4-card strength template, with title the two extracted significant words
followed by "Strength Training", the verbatim prompt as description, and
the pre-computed total duration. -/
theorem generateRoutineFromPrompt_scenarioB (gen : Nat → String)
    (routineId : String) :
    extractRoutineType scenarioBPrompt = "strength"
    ∧ (generateRoutineFromPrompt gen routineId scenarioBPrompt).cards.length = 4
    ∧ (generateRoutineFromPrompt gen routineId scenarioBPrompt).title
        = "30-minute HIIT Strength Training"
    ∧ (generateRoutineFromPrompt gen routineId scenarioBPrompt).cards.map
        (fun routineCard => routineCard.card.title)
        = ["Warm-up", "Squat Series", "Push-up Variations", "Cool Down"]
    ∧ (generateRoutineFromPrompt gen routineId scenarioBPrompt).description
        = scenarioBPrompt
    ∧ (generateRoutineFromPrompt gen routineId scenarioBPrompt).totalDuration
        = 420 :=
  ⟨rfl, rfl, rfl, rfl, rfl, rfl⟩

end Solstice
